import Mathlib

/-!
Verification development for the Microfeed uploader (src/microfeed.py).

The file shallowly embeds the upload pipeline: the Feed Client wrappers
(create_item, generate_presigned_url, fetch_item, update_item_with_attachment),
the Transfer Engine (upload_file together with the urllib3 Retry policy it
configures, and the ProgressFile byte-counting wrapper), and the per-file
orchestration loop of process_files.  Remote behaviour (HTTP responses,
filesystem move success) is supplied by an explicit environment; the
definitions mirror the Python control flow branch by branch.
-/

namespace Microfeed

/-- One discovered video file: display name, name without extension
(`file_path.stem`, used as the record title), size in bytes
(`file_path.stat().st_size`), and the MIME type that
`mimetypes.guess_type` would report (`none` when undeterminable). -/
structure FileDesc where
  name : String
  stem : String
  size : Nat
  mime : Option String
  deriving DecidableEq

/-- Result of one HTTP exchange as seen by a Feed Client wrapper: either a
response with a status code and a parsed body, or a network-layer
exception (`requests.exceptions.RequestException`). -/
inductive HttpResult (β : Type) where
  | ok (statusCode : Nat) (body : β)
  | exn
  deriving DecidableEq

/-- Python computes the size threshold as `4.8 * 1024 * 1024 * 1024` in IEEE-754
double arithmetic: the double nearest to 4.8 is 5404319552844595/2^50, and the
three multiplications by 1024 are exact, so the threshold is exactly
5404319552844595/2^20 = 5153960755.19999980926513671875.  An integer byte
count `size` satisfies `size > threshold` iff `2^20 * size > 5404319552844595`
(equivalently iff `size ≥ 5153960756`). -/
def isTooLarge (size : Nat) : Bool :=
  decide (1048576 * size > 5404319552844595)

/-- Embedding of `create_item` (src/microfeed.py lines 77-109).  The input is
the HTTP outcome of the POST to `/api/items/`; the body is the optional `"id"`
field of the JSON response (`data.get("id")`).  The function returns the item
id only when the status code is 201 and the id is present and non-empty
(Python: `if not item_id: return None`, where both a missing key and an empty
string are falsy); every other outcome, including a network exception, yields
`none`. -/
def create_item : HttpResult (Option String) → Option String
  | .exn => none
  | .ok statusCode body =>
    if statusCode = 201 then
      match body with
      | some id => if id = "" then none else some id
      | none => none
    else none

/-! ### Transfer Engine: upload_file with the urllib3 Retry policy

`upload_file` mounts an `HTTPAdapter` with
`Retry(total=3, backoff_factor=0.3, status_forcelist=[500,502,503,504],
allowed_methods=["PUT"])` and issues a single `session.put`.  urllib3's
`Retry.increment` decrements `total` on every retriable outcome (a listed
status code or a transport exception) and raises `MaxRetryError` once `total`
would go negative; with `raise_on_status=True` (the default) the exhausted
retry surfaces to requests as a `RequestException`, which `upload_file`
catches and converts to `False`.  A response whose status is not in the
forcelist is returned to the caller immediately, with no retry. -/

/-- Low-level outcome of one PUT attempt: an HTTP status code, or a
transport-layer exception. -/
inductive PutResult where
  | status (code : Nat)
  | exn
  deriving DecidableEq

/-- Aggregated outcome of `session.put`: a response that reached the caller,
or an exception (`MaxRetryError` after retry exhaustion, or a final transport
error). -/
inductive SessionOutcome where
  | resp (code : Nat)
  | err
  deriving DecidableEq

/-- The configured `status_forcelist=[500, 502, 503, 504]`. -/
def isForceStatus (code : Nat) : Bool :=
  (code == 500) || (code == 502) || (code == 503) || (code == 504)

/-- The retry loop of urllib3 as configured in `upload_file`: `oracle n` is
the low-level result of attempt `n`; `retriesLeft` starts at `total = 3`.
Returns the aggregated outcome together with the number of attempts issued. -/
def sessionPutGo (oracle : Nat → PutResult) (attempt : Nat) :
    Nat → SessionOutcome × Nat
  | 0 =>
    match oracle attempt with
    | .status code =>
      if isForceStatus code then (.err, attempt + 1) else (.resp code, attempt + 1)
    | .exn => (.err, attempt + 1)
  | retriesLeft + 1 =>
    match oracle attempt with
    | .status code =>
      if isForceStatus code then sessionPutGo oracle (attempt + 1) retriesLeft
      else (.resp code, attempt + 1)
    | .exn => sessionPutGo oracle (attempt + 1) retriesLeft

/-- Embedding of `upload_file` (src/microfeed.py lines 168-202): one
`session.put` under the configured retry policy; success iff the response
status is one of 200, 201, 204 (`if response.status_code in [200, 201, 204]`).
Returns the boolean result together with the number of PUT attempts issued. -/
def upload_file (oracle : Nat → PutResult) : Bool × Nat :=
  match sessionPutGo oracle 0 3 with
  | (.resp code, n) => ((code == 200) || (code == 201) || (code == 204), n)
  | (.err, n) => (false, n)

/-! ### ProgressFile: byte accounting across read chunks and retry attempts

`ProgressFile` (src/microfeed.py lines 147-166) wraps the opened file:
`__init__` sets `self.total = os.path.getsize(file.name)` and
`self.read_bytes = 0` once, when the wrapper is constructed; each `read`
that returns non-empty data adds its length to `read_bytes` and invokes
`progress_callback(read_bytes, total)`.  When urllib3 retries the PUT, it
rewinds the body to position 0 via `body.seek(0)` — `ProgressFile` has no
`seek` of its own, so `__getattr__` delegates the seek to the underlying
file, while `read_bytes` keeps its accumulated value.  Each attempt then
re-reads the whole file through `ProgressFile.read`. -/

/-- The successive sizes of the non-empty chunks produced by reading a file
of `remaining` bytes in pieces of at most `chunk` bytes (the read loop of the
HTTP body send).  `fuel` bounds the recursion; `chunkSizes` below supplies
`fuel = size`, which suffices since every read consumes at least one byte. -/
def chunkSizesGo (chunk : Nat) : Nat → Nat → List Nat
  | _, 0 => []
  | remaining, fuel + 1 =>
    if remaining = 0 then []
    else if min chunk remaining = 0 then []
    else min chunk remaining :: chunkSizesGo chunk (remaining - min chunk remaining) fuel

/-- Chunk sizes of one full read pass over a file of `size` bytes. -/
def chunkSizes (chunk size : Nat) : List Nat :=
  chunkSizesGo chunk size size

/-- The `(read_bytes, total)` pairs passed to the progress callback by one
read pass, when the counter starts at `b`: after each chunk `c` the counter
becomes `b + c` and the callback receives `(b + c, total)`. -/
def reportsFrom (total : Nat) : Nat → List Nat → List (Nat × Nat)
  | _, [] => []
  | b, c :: cs => (b + c, total) :: reportsFrom total (b + c) cs

/-- The callback reports of `attempts` successive full-body transmissions of a
file of `size` bytes through one `ProgressFile` whose counter starts at `b`:
the file position is rewound between attempts but the counter is not, so
attempt `k` starts from the cumulative count `b + k * size`. -/
def multiAttemptReports (size chunk : Nat) : Nat → Nat → List (Nat × Nat)
  | _, 0 => []
  | b, attempts + 1 =>
    reportsFrom size b (chunkSizes chunk size)
      ++ multiAttemptReports size chunk (b + size) attempts

/-- The percentage the progress callback computes from a report:
`bytes_uploaded / total_size * 100` (src/microfeed.py line 379). -/
def pct (bytes total : Nat) : ℚ :=
  (bytes : ℚ) / (total : ℚ) * 100

/-- Callback trace of one complete `upload_file` call: every attempt counted
by the retry loop transmits the whole body (the 503 responses of the
counterexamples arrive only after the request body has been sent), so the
trace is `multiAttemptReports` over the attempt count of `upload_file`. -/
def transferCallbackTrace (oracle : Nat → PutResult) (size chunk : Nat) :
    List (Nat × Nat) :=
  multiAttemptReports size chunk 0 (upload_file oracle).2

/-! ### Events and the orchestration environment -/

/-- One message put on `root.queue` by the worker (plus the initial per-file
"Pending" rows), as drained by `check_queue`. -/
inductive Event where
  | status (msg : String)
  | overallProgress (pctVal : ℚ)
  | fileProgress (name : String) (pctVal : ℚ)
  | fileStatus (name : String) (st : String)
  | fileSpeed (name : String) (speed : String)
  | fileItemId (name : String) (id : String)
  | fileApiLink (name : String) (link : String)
  | fileLocation (name : String) (loc : String)
  | enableButtons
  deriving DecidableEq

/-- One remote operation issued for a file, with its request data. -/
inductive RemoteCall where
  | create (title : String)
  | presign (itemId : String) (category : String)
  | upload (url : String)
  | fetch (itemId : String)
  | finalize (itemId : String)
  deriving DecidableEq

/-- Where a file ends up after its pipeline pass. -/
inductive FileLoc where
  | source
  | tooLarge
  | processed
  deriving DecidableEq

/-- The terminal outcome of one file's pass through the loop; the `moved`
flag records whether the terminal `shutil.move` succeeded. -/
inductive Outcome where
  | tooLarge (moved : Bool)
  | createFailed
  | credentialFailed
  | uploadFailed
  | fetchFailed
  | finalizeFailed
  | completed (moved : Bool)
  deriving DecidableEq

/-- Failure outcomes of the non-size-gated steps (create / credential /
transfer / fetch / finalize). -/
def Outcome.isFailure : Outcome → Bool
  | .createFailed => true
  | .credentialFailed => true
  | .uploadFailed => true
  | .fetchFailed => true
  | .finalizeFailed => true
  | _ => false

/-- The behaviour of everything outside the worker's own control flow: HTTP
responses of the four Feed Client endpoints, the low-level results of the PUT
attempts, the chunk reports the transfer produces, the throughput strings
(which depend on wall-clock time), and whether the filesystem moves
succeed. -/
structure Env where
  /-- HTTP outcome of the create POST; body is the optional `"id"` field. -/
  createResp : FileDesc → HttpResult (Option String)
  /-- Returned pair of `generate_presigned_url`; `none` stands for its
  `(None, None)` failure returns (non-201 status, missing field, exception). -/
  presignResp : String → FileDesc → Option (String × String)
  /-- Low-level result of the n-th PUT attempt for this file. -/
  uploadOracle : FileDesc → Nat → PutResult
  /-- The `(bytes, total)` reports the transfer's callback receives. -/
  transferReports : FileDesc → List (Nat × Nat)
  /-- The throughput string computed for a given byte count. -/
  speedStr : FileDesc → Nat → String
  /-- Result of `fetch_item`; `none` stands for every falsy outcome (non-200
  status, exception, empty body). -/
  fetchResp : String → Option String
  /-- Whether `update_item_with_attachment(item_id, media_url, mime, size)`
  returns `True`. -/
  updateResp : String → String → String → Nat → Bool
  /-- Whether the move into `too_large` succeeds. -/
  moveTooLargeOk : FileDesc → Bool
  /-- Whether the move into `processed` succeeds. -/
  moveProcessedOk : FileDesc → Bool

/-- The `file_progress` / `file_speed` event pairs the progress callback
(src/microfeed.py lines 378-384) enqueues, one pair per report. -/
def progressEventsOf (name : String) (speed : Nat → String) :
    List (Nat × Nat) → List Event
  | [] => []
  | (b, t) :: rest =>
    .fileProgress name (pct b t) :: .fileSpeed name (speed b)
      :: progressEventsOf name speed rest

/-- The in-transfer progress events of one file. -/
def transferProgressEvents (env : Env) (f : FileDesc) : List Event :=
  progressEventsOf f.name (env.speedStr f) (env.transferReports f)

/-- Result of one file's pass: the events enqueued, the remote calls issued,
the file's final location, the terminal outcome, and whether
`files_processed` was incremented. -/
structure FileResult where
  events : List Event
  calls : List RemoteCall
  loc : FileLoc
  outcome : Outcome
  processedInc : Bool

/-- One iteration of the per-file loop of `process_files`
(src/microfeed.py lines 313-461), for the file at position `idx` (0-based)
out of `total`, with `processedSoFar` files already counted into
`files_processed`.  The branches mirror the source in order: size gate with
move-to-`too_large` (and its move-failure arm), create, presign, upload with
in-transfer progress events, fetch, finalize with move-to-`processed` (and
its move-failure arm, which emits only a status line and keeps the
"Completed" file status), and the trailing overall-progress and
100%-progress events that run whenever the fetch succeeded.  Exception text
interpolated into Python's move-failure messages is omitted. -/
def processFile (env : Env) (folder : String) (total idx processedSoFar : Nat)
    (f : FileDesc) : FileResult :=
  if isTooLarge f.size then
    if env.moveTooLargeOk f then
      { events :=
          [.status s!"Processing file {f.name} ({idx+1}/{total})",
           .fileStatus f.name "Processing",
           .status s!"File {f.name} is too large (>4.8GB). Moved to too_large folder.",
           .fileStatus f.name "Too Large",
           .fileLocation f.name (folder ++ "/too_large/" ++ f.name)],
        calls := [], loc := .tooLarge, outcome := .tooLarge true,
        processedInc := false }
    else
      { events :=
          [.status s!"Processing file {f.name} ({idx+1}/{total})",
           .fileStatus f.name "Processing",
           .status s!"Failed to move {f.name} to too_large folder.",
           .fileStatus f.name "Error"],
        calls := [], loc := .source, outcome := .tooLarge false,
        processedInc := false }
  else
    match create_item (env.createResp f) with
    | none =>
      { events :=
          [.status s!"Processing file {f.name} ({idx+1}/{total})",
           .fileStatus f.name "Processing",
           .status s!"Skipping file {f.name} due to item creation failure.",
           .fileStatus f.name "Error"],
        calls := [.create f.stem], loc := .source, outcome := .createFailed,
        processedInc := false }
    | some itemId =>
      match env.presignResp itemId f with
      | none =>
        { events :=
            [.status s!"Processing file {f.name} ({idx+1}/{total})",
             .fileStatus f.name "Processing",
             .fileItemId f.name itemId,
             .status s!"Skipping upload for {f.name} due to presigned URL failure.",
             .fileStatus f.name "Error"],
          calls := [.create f.stem, .presign itemId "video"], loc := .source,
          outcome := .credentialFailed, processedInc := false }
      | some (presignedUrl, mediaUrl) =>
        if (upload_file (env.uploadOracle f)).1 then
          match env.fetchResp itemId with
          | none =>
            { events :=
                [.status s!"Processing file {f.name} ({idx+1}/{total})",
                 .fileStatus f.name "Processing",
                 .fileItemId f.name itemId,
                 .fileApiLink f.name mediaUrl]
                ++ transferProgressEvents env f ++
                [.status s!"Failed to fetch item details for {itemId}. Skipping update.",
                 .fileStatus f.name "Error"],
              calls := [.create f.stem, .presign itemId "video",
                .upload presignedUrl, .fetch itemId],
              loc := .source, outcome := .fetchFailed, processedInc := false }
          | some _ =>
            if env.updateResp itemId mediaUrl (f.mime.getD "application/octet-stream") f.size then
              if env.moveProcessedOk f then
                { events :=
                    [.status s!"Processing file {f.name} ({idx+1}/{total})",
                     .fileStatus f.name "Processing",
                     .fileItemId f.name itemId,
                     .fileApiLink f.name mediaUrl]
                    ++ transferProgressEvents env f ++
                    [.status s!"Successfully processed {f.name}.",
                     .fileStatus f.name "Completed",
                     .status s!"Moved {f.name} to processed folder.",
                     .fileLocation f.name (folder ++ "/processed/" ++ f.name),
                     .overallProgress (((processedSoFar + 1 : Nat) : ℚ) / (total : ℚ) * 100),
                     .fileProgress f.name 100],
                  calls := [.create f.stem, .presign itemId "video",
                    .upload presignedUrl, .fetch itemId, .finalize itemId],
                  loc := .processed, outcome := .completed true,
                  processedInc := true }
              else
                { events :=
                    [.status s!"Processing file {f.name} ({idx+1}/{total})",
                     .fileStatus f.name "Processing",
                     .fileItemId f.name itemId,
                     .fileApiLink f.name mediaUrl]
                    ++ transferProgressEvents env f ++
                    [.status s!"Successfully processed {f.name}.",
                     .fileStatus f.name "Completed",
                     .status s!"Failed to move {f.name} to processed folder.",
                     .overallProgress (((processedSoFar + 1 : Nat) : ℚ) / (total : ℚ) * 100),
                     .fileProgress f.name 100],
                  calls := [.create f.stem, .presign itemId "video",
                    .upload presignedUrl, .fetch itemId, .finalize itemId],
                  loc := .source, outcome := .completed false,
                  processedInc := true }
            else
              { events :=
                  [.status s!"Processing file {f.name} ({idx+1}/{total})",
                   .fileStatus f.name "Processing",
                   .fileItemId f.name itemId,
                   .fileApiLink f.name mediaUrl]
                  ++ transferProgressEvents env f ++
                  [.status s!"Failed to update item {itemId} with attachment for {f.name}.",
                   .fileStatus f.name "Error",
                   .overallProgress (((processedSoFar + 1 : Nat) : ℚ) / (total : ℚ) * 100),
                   .fileProgress f.name 100],
                calls := [.create f.stem, .presign itemId "video",
                  .upload presignedUrl, .fetch itemId, .finalize itemId],
                loc := .source, outcome := .finalizeFailed,
                processedInc := true }
        else
          { events :=
              [.status s!"Processing file {f.name} ({idx+1}/{total})",
               .fileStatus f.name "Processing",
               .fileItemId f.name itemId,
               .fileApiLink f.name mediaUrl]
              ++ transferProgressEvents env f ++
              [.status s!"Failed to upload {f.name}.",
               .fileStatus f.name "Upload Failed"],
            calls := [.create f.stem, .presign itemId "video",
              .upload presignedUrl],
            loc := .source, outcome := .uploadFailed,
            processedInc := false }

/-- The per-file loop over the remaining files, threading the 0-based index
and the `files_processed` counter. -/
def processFilesGo (env : Env) (folder : String) (total : Nat) :
    Nat → Nat → List FileDesc → List Event
  | _, _, [] => []
  | idx, processed, f :: rest =>
    let r := processFile env folder total idx processed f
    r.events ++
      processFilesGo env folder total (idx + 1)
        (processed + (if r.processedInc then 1 else 0)) rest

/-- Embedding of `process_files` (src/microfeed.py lines 268-464) as the full
event trace it enqueues: the scanning status, the early exit when no video
file was discovered, otherwise the per-file "Pending" initialisation rows,
the per-file loop, and the closing status plus the re-enable-controls
signal. -/
def process_files (env : Env) (folder : String) (files : List FileDesc) :
    List Event :=
  Event.status s!"Scanning folder {folder} for video files..." ::
    (if files.isEmpty then
      [.status "No video files to upload. Exiting.", .enableButtons]
    else
      (files.map fun f => Event.fileStatus f.name "Pending")
        ++ processFilesGo env folder files.length 0 0 files
        ++ [.status "All files processed.", .enableButtons])

/-- Number of human-readable status events in a trace. -/
def statusCount : List Event → Nat
  | [] => 0
  | .status _ :: rest => statusCount rest + 1
  | _ :: rest => statusCount rest

/-- Number of per-file status updates in a trace. -/
def fileStatusCount : List Event → Nat
  | [] => 0
  | .fileStatus _ _ :: rest => fileStatusCount rest + 1
  | _ :: rest => fileStatusCount rest

/-- Number of record-create calls in a call list. -/
def createCount : List RemoteCall → Nat
  | [] => 0
  | .create _ :: rest => createCount rest + 1
  | _ :: rest => createCount rest

/-- Number of upload-credential requests in a call list. -/
def presignCount : List RemoteCall → Nat
  | [] => 0
  | .presign _ _ :: rest => presignCount rest + 1
  | _ :: rest => presignCount rest

/-- The enumerated per-file status values of the event protocol. -/
def allowedFileStatuses : List String :=
  ["Pending", "Processing", "Too Large", "Error", "Upload Failed", "Completed"]

/-- The fixed request timeouts (in seconds) the four Feed Client wrappers
pass to requests: `fetch_item` passes `timeout=30` (src/microfeed.py line
217); `create_item` (line 94), `generate_presigned_url` (line 129) and
`update_item_with_attachment` (line 252) pass no `timeout` argument at all,
so requests uses its default of no timeout — modelled as `none`. -/
inductive FeedOp where
  | create
  | credential
  | fetch
  | finalize
  deriving DecidableEq

/-- Timeout argument of each Feed Client request, read off the source. -/
def requestTimeout : FeedOp → Option Nat
  | .create => none
  | .credential => none
  | .fetch => some 30
  | .finalize => none

/-- The per-attempt timeout of the transfer PUT (`timeout=300`,
src/microfeed.py line 190). -/
def transferTimeout : Option Nat := some 300

/-! ### Concrete environments and inputs used to exercise the theorems -/

/-- An environment in which every remote call succeeds and every filesystem
move succeeds. -/
def okEnv : Env where
  createResp := fun _ => .ok 201 (some "item1")
  presignResp := fun _ _ => some ("https://upload.example/u", "https://media.example/m")
  uploadOracle := fun _ _ => .status 200
  transferReports := fun _ => [(5, 10), (10, 10)]
  speedStr := fun _ _ => "1.00 KB/s"
  fetchResp := fun _ => some "data"
  updateResp := fun _ _ _ _ => true
  moveTooLargeOk := fun _ => true
  moveProcessedOk := fun _ => true

/-- Like `okEnv` but the create POST raises a network exception. -/
def createFailEnv : Env :=
  { okEnv with createResp := fun _ => .exn }

/-- Like `okEnv` but the destination answers 503 on every PUT attempt. -/
def upload503Env : Env :=
  { okEnv with uploadOracle := fun _ _ => .status 503 }

/-- Like `okEnv` but the finalize PUT fails. -/
def finalizeFailEnv : Env :=
  { okEnv with updateResp := fun _ _ _ _ => false }

/-- A 10-byte video file. -/
def sampleFile : FileDesc :=
  { name := "a.mp4", stem := "a", size := 10, mime := some "video/mp4" }

/-- A file one byte above the effective integer threshold. -/
def bigFile : FileDesc :=
  { name := "big.mov", stem := "big", size := 5153960756, mime := some "video/quicktime" }

/-- A PUT destination that answers 503 once and then 200: the transfer
succeeds on its second attempt. -/
def retryThenOkOracle : Nat → PutResult :=
  fun n => if n = 0 then .status 503 else .status 200

/-! ### Helper lemmas -/

theorem statusCount_append (l₁ l₂ : List Event) :
    statusCount (l₁ ++ l₂) = statusCount l₁ + statusCount l₂ := by
  induction l₁ with
  | nil => simp [statusCount]
  | cons e rest ih => cases e <;> simp [statusCount, ih] <;> omega

theorem fileStatusCount_append (l₁ l₂ : List Event) :
    fileStatusCount (l₁ ++ l₂) = fileStatusCount l₁ + fileStatusCount l₂ := by
  induction l₁ with
  | nil => simp [fileStatusCount]
  | cons e rest ih => cases e <;> simp [fileStatusCount, ih] <;> omega

theorem statusCount_progressEventsOf (name : String) (speed : Nat → String)
    (rs : List (Nat × Nat)) : statusCount (progressEventsOf name speed rs) = 0 := by
  induction rs with
  | nil => rfl
  | cons r rest ih => simp [progressEventsOf, statusCount, ih]

theorem fileStatusCount_progressEventsOf (name : String) (speed : Nat → String)
    (rs : List (Nat × Nat)) : fileStatusCount (progressEventsOf name speed rs) = 0 := by
  induction rs with
  | nil => rfl
  | cons r rest ih => simp [progressEventsOf, fileStatusCount, ih]

theorem fileStatus_not_mem_progressEventsOf (n s name : String)
    (speed : Nat → String) (rs : List (Nat × Nat)) :
    Event.fileStatus n s ∉ progressEventsOf name speed rs := by
  induction rs with
  | nil => simp [progressEventsOf]
  | cons r rest ih => simp [progressEventsOf, ih]

theorem getLast?_append_pair {α : Type} (l : List α) (a b : α) :
    (l ++ [a, b]).getLast? = some b := by
  rw [List.getLast?_append_of_ne_nil l (by simp)]
  rfl

theorem getLast?_cons_append_cons {α : Type} (a : α) (l : List α) (b : α)
    (l' : List α) : (a :: (l ++ b :: l')).getLast? = (b :: l').getLast? := by
  rw [show a :: (l ++ b :: l') = (a :: l) ++ b :: l' from rfl,
    List.getLast?_append_cons]

/-- Every report of one read pass carries the fixed total as its second
component. -/
theorem reportsFrom_snd (total : Nat) (cs : List Nat) :
    ∀ b, ∀ p ∈ reportsFrom total b cs, p.2 = total := by
  induction cs with
  | nil => intro b p hp; simp [reportsFrom] at hp
  | cons c rest ih =>
    intro b p hp
    simp only [reportsFrom, List.mem_cons] at hp
    rcases hp with h | h
    · simp [h]
    · exact ih _ p h

/-- Reported counts never fall below the starting counter value. -/
theorem reportsFrom_fst_ge (total : Nat) (cs : List Nat) :
    ∀ b, ∀ p ∈ reportsFrom total b cs, b ≤ p.1 := by
  induction cs with
  | nil => intro b p hp; simp [reportsFrom] at hp
  | cons c rest ih =>
    intro b p hp
    simp only [reportsFrom, List.mem_cons] at hp
    rcases hp with h | h
    · simp [h]
    · have := ih (b + c) p h
      omega

/-- The counts reported by one read pass are non-decreasing. -/
theorem reportsFrom_chain (total : Nat) (cs : List Nat) :
    ∀ b, List.Chain' (fun p q : Nat × Nat => p.1 ≤ q.1) (reportsFrom total b cs) := by
  induction cs with
  | nil => intro b; simp [reportsFrom]
  | cons c rest ih =>
    intro b
    rw [reportsFrom, List.chain'_cons']
    refine ⟨?_, ih (b + c)⟩
    intro q hq
    have := reportsFrom_fst_ge total rest (b + c) q (List.mem_of_mem_head? hq)
    omega

/-- The last report of one read pass: the starting counter plus all chunk
sizes. -/
theorem reportsFrom_getLast? (total : Nat) (cs : List Nat) (hcs : cs ≠ []) :
    ∀ b, (reportsFrom total b cs).getLast? = some (b + cs.sum, total) := by
  induction cs with
  | nil => exact absurd rfl hcs
  | cons c rest ih =>
    intro b
    by_cases hr : rest = []
    · subst hr; simp [reportsFrom]
    · have hne : reportsFrom total (b + c) rest ≠ [] := by
        cases rest with
        | nil => exact absurd rfl hr
        | cons d ds => simp [reportsFrom]
      rw [reportsFrom,
        show ((b + c, total) :: reportsFrom total (b + c) rest)
          = [(b + c, total)] ++ reportsFrom total (b + c) rest from rfl,
        List.getLast?_append_of_ne_nil _ hne, ih hr (b + c)]
      simp
      omega

/-- Shifting the starting counter shifts every reported count. -/
theorem reportsFrom_shift (total : Nat) (cs : List Nat) :
    ∀ b d, reportsFrom total (b + d) cs
      = (reportsFrom total b cs).map fun p => (p.1 + d, p.2) := by
  induction cs with
  | nil => intro b d; rfl
  | cons c rest ih =>
    intro b d
    simp only [reportsFrom, List.map_cons]
    rw [Nat.add_right_comm b d c, ih (b + c) d]

/-- A full read pass consumes the whole file: the chunk sizes sum to the
remaining byte count. -/
theorem chunkSizesGo_sum (chunk : Nat) (hchunk : 0 < chunk) :
    ∀ fuel remaining, remaining ≤ fuel → (chunkSizesGo chunk remaining fuel).sum = remaining := by
  intro fuel
  induction fuel with
  | zero =>
    intro remaining h
    have hz : remaining = 0 := by omega
    subst hz
    rfl
  | succ n ih =>
    intro remaining h
    cases remaining with
    | zero => simp [chunkSizesGo]
    | succ m =>
      rw [chunkSizesGo, if_neg (show ¬(m + 1 = 0) by omega),
        if_neg (show ¬(min chunk (m + 1) = 0) by omega)]
      simp only [List.sum_cons]
      rw [ih (m + 1 - min chunk (m + 1)) (by omega)]
      omega

theorem chunkSizes_sum (chunk size : Nat) (hchunk : 0 < chunk) :
    (chunkSizes chunk size).sum = size :=
  chunkSizesGo_sum chunk hchunk size size le_rfl

theorem chunkSizes_ne_nil (chunk size : Nat) (hchunk : 0 < chunk)
    (hsize : 0 < size) : chunkSizes chunk size ≠ [] := by
  cases size with
  | zero => omega
  | succ m =>
    rw [chunkSizes, chunkSizesGo, if_neg (show ¬(m + 1 = 0) by omega),
      if_neg (show ¬(min chunk (m + 1) = 0) by omega)]
    simp

/-- With a zero chunk size no read makes progress and the pass is empty. -/
theorem chunkSizes_zero_chunk (size : Nat) : chunkSizes 0 size = [] := by
  cases size with
  | zero => rfl
  | succ m =>
    rw [chunkSizes, chunkSizesGo, if_neg (show ¬(m + 1 = 0) by omega)]
    simp

/-- Every report of a multi-attempt trace carries the file size as the total. -/
theorem multiAttemptReports_snd (size chunk : Nat) :
    ∀ k b, ∀ p ∈ multiAttemptReports size chunk b k, p.2 = size := by
  intro k
  induction k with
  | zero => intro b p hp; simp [multiAttemptReports] at hp
  | succ n ih =>
    intro b p hp
    rw [multiAttemptReports] at hp
    rcases List.mem_append.1 hp with h | h
    · exact reportsFrom_snd size _ b p h
    · exact ih (b + size) p h

/-- Reported counts in a multi-attempt trace never fall below the starting
counter value. -/
theorem multiAttemptReports_fst_ge (size chunk : Nat) :
    ∀ k b, ∀ p ∈ multiAttemptReports size chunk b k, b ≤ p.1 := by
  intro k
  induction k with
  | zero => intro b p hp; simp [multiAttemptReports] at hp
  | succ n ih =>
    intro b p hp
    rw [multiAttemptReports] at hp
    rcases List.mem_append.1 hp with h | h
    · exact reportsFrom_fst_ge size _ b p h
    · have := ih (b + size) p h
      omega

/-- The counts of a multi-attempt trace are non-decreasing: the counter is
never reset, so each attempt continues above the previous one. -/
theorem multiAttemptReports_chain (size chunk : Nat) :
    ∀ k b, List.Chain' (fun p q : Nat × Nat => p.1 ≤ q.1)
      (multiAttemptReports size chunk b k) := by
  intro k
  induction k with
  | zero => intro b; simp [multiAttemptReports]
  | succ n ih =>
    intro b
    rw [multiAttemptReports]
    refine List.Chain'.append (reportsFrom_chain size _ b) (ih (b + size)) ?_
    intro x hx y hy
    rcases hchunk : chunk with _ | c
    · rw [hchunk] at hx
      rw [chunkSizes_zero_chunk] at hx
      simp [reportsFrom] at hx
    · have hcs : chunkSizes chunk size ≠ [] := by
        intro hnil
        rw [hnil] at hx
        simp [reportsFrom] at hx
      rw [reportsFrom_getLast? size _ hcs b] at hx
      have hsum : (chunkSizes chunk size).sum = size :=
        chunkSizes_sum chunk size (by omega)
      have hy' : b + size ≤ y.1 :=
        multiAttemptReports_fst_ge size chunk n (b + size) y
          (List.mem_of_mem_head? hy)
      have hx' : (b + (chunkSizes chunk size).sum, size) = x := by
        simpa using hx
      subst hx'
      simpa [hsum] using hy'

/-- A single attempt is one read pass. -/
theorem multiAttemptReports_one (size chunk b : Nat) :
    multiAttemptReports size chunk b 1
      = reportsFrom size b (chunkSizes chunk size) := by
  rw [multiAttemptReports, multiAttemptReports]
  simp

/-- The last report of a first (and only) attempt is `(size, size)`. -/
theorem multiAttemptReports_one_getLast? (size chunk : Nat)
    (hsize : 0 < size) (hchunk : 0 < chunk) :
    (multiAttemptReports size chunk 0 1).getLast? = some (size, size) := by
  rw [multiAttemptReports_one,
    reportsFrom_getLast? size _ (chunkSizes_ne_nil chunk size hchunk hsize) 0,
    chunkSizes_sum chunk size hchunk]
  simp

/-- A full first attempt reports 100 percent at its end. -/
theorem pct_self (size : Nat) (hsize : 0 < size) : pct size size = 100 := by
  rw [pct, div_self (by exact_mod_cast Nat.pos_iff_ne_zero.1 hsize), one_mul]

/-- Every branch of the per-file loop starts by announcing "Processing". -/
theorem processing_mem_processFile (env : Env) (folder : String)
    (total idx ps : Nat) (f : FileDesc) :
    Event.fileStatus f.name "Processing"
      ∈ (processFile env folder total idx ps f).events := by
  unfold processFile
  repeat' split
  all_goals simp

/-- Every file of the remaining list gets its "Processing" announcement. -/
theorem processing_mem_processFilesGo (env : Env) (folder : String)
    (total : Nat) (l : List FileDesc) :
    ∀ idx ps, ∀ g ∈ l, Event.fileStatus g.name "Processing"
      ∈ processFilesGo env folder total idx ps l := by
  induction l with
  | nil => intro idx ps g hg; simp at hg
  | cons f rest ih =>
    intro idx ps g hg
    rw [processFilesGo]
    rcases List.mem_cons.1 hg with h | h
    · subst h
      exact List.mem_append_left _ (processing_mem_processFile env folder total idx ps g)
    · exact List.mem_append_right _ (ih _ _ g h)

/-- Every discovered file gets its "Processing" announcement in the full
trace, whatever happens to the files before it. -/
theorem processing_mem_process_files (env : Env) (folder : String)
    (files : List FileDesc) (g : FileDesc) (hg : g ∈ files) :
    Event.fileStatus g.name "Processing" ∈ process_files env folder files := by
  rw [process_files]
  have hne : files.isEmpty = false := by
    cases files with
    | nil => simp at hg
    | cons f rest => rfl
  rw [hne]
  simp only [Bool.false_eq_true, if_false]
  refine List.mem_cons_of_mem _ (List.mem_append_left _ (List.mem_append_right _ ?_))
  exact processing_mem_processFilesGo env folder files.length files 0 0 g hg

/-- Against a destination that always answers 503, the retry loop exhausts
its budget: starting with `retriesLeft` retries it issues `retriesLeft + 1`
attempts and raises. -/
theorem sessionPutGo_const503 (oracle : Nat → PutResult)
    (h : ∀ n, oracle n = .status 503) :
    ∀ retriesLeft attempt,
      sessionPutGo oracle attempt retriesLeft = (.err, attempt + retriesLeft + 1) := by
  intro r
  induction r with
  | zero =>
    intro a
    simp [sessionPutGo, h a, isForceStatus]
  | succ n ih =>
    intro a
    simp only [sessionPutGo, h a, isForceStatus]
    rw [if_pos (by decide)]
    rw [ih (a + 1)]
    have harith : a + 1 + n + 1 = a + (n + 1) + 1 := by omega
    rw [harith]

/-- A status outside the forcelist is returned to the caller on the first
attempt, whatever the retry budget. -/
theorem sessionPutGo_nonforce (c : Nat) (hc : isForceStatus c = false) :
    ∀ retriesLeft attempt,
      sessionPutGo (fun _ => .status c) attempt retriesLeft = (.resp c, attempt + 1) := by
  intro r a
  cases r with
  | zero => simp [sessionPutGo, hc]
  | succ n => simp [sessionPutGo, hc]

/-! ### The claims -/

/-- C8: `create_item` returns an identifier exactly when the service
answered with the "created" status (201) and a non-empty identifier in the
body; a successful HTTP exchange whose body lacks an identifier (or carries
an empty one) is still a failure, and a network-layer exception is a
failure. -/
theorem create_item_requires_201_and_nonempty_id :
    (∀ (r : HttpResult (Option String)) (id : String),
      create_item r = some id ↔ r = HttpResult.ok 201 (some id) ∧ id ≠ "") ∧
    create_item HttpResult.exn = none := by
  refine ⟨?_, rfl⟩
  intro r id
  cases r with
  | exn => simp [create_item]
  | ok code body =>
    cases body with
    | none =>
      rw [create_item]
      split <;> simp_all
    | some v =>
      rw [create_item]
      split
      case isTrue h201 =>
        subst h201
        by_cases hv : v = ""
        · subst hv
          simp
          exact fun h1 => h1.symm
        · simp only [if_neg hv, Option.some.injEq, HttpResult.ok.injEq, true_and,
            eq_self_iff_true, ne_eq]
          constructor
          · rintro rfl
            exact ⟨rfl, hv⟩
          · rintro ⟨rfl, h2⟩
            rfl
      case isFalse h201 =>
        simp_all

/-- C6 counterexample: it is false that every Feed Client operation is
issued with a fixed request timeout — the create operation is issued with
none (src/microfeed.py line 94 calls `requests.post` without a `timeout`
argument, and requests defaults to no timeout). -/
theorem timeout_missing_counterexample :
    ¬(∀ op : FeedOp, (requestTimeout op).isSome = true) := by
  intro h
  exact absurd (h .create) (by decide)

/-- C6 amended: only the fetch operation carries a fixed request timeout (30
seconds); the create, credential and finalize operations are issued without
any request timeout and can hang unboundedly.  (The transfer PUT separately
uses a 300-second per-attempt timeout.) -/
theorem request_timeouts :
    requestTimeout .create = none ∧ requestTimeout .credential = none ∧
    requestTimeout .fetch = some 30 ∧ requestTimeout .finalize = none ∧
    transferTimeout = some 300 :=
  ⟨rfl, rfl, rfl, rfl, rfl⟩

/-- C5 counterexample: a 2-byte file is sent in 1-byte chunks and the
transfer is retried once, all through the same ProgressFile.  The full
callback trace is (1,2),(2,2),(3,2),(4,2): the reports of the retried
attempt are (3,2),(4,2), not the fresh-from-zero reports (1,2),(2,2) — the
byte counts of the new attempt do not start again from zero. -/
theorem counter_not_reset_counterexample :
    multiAttemptReports 2 1 0 2 = [(1, 2), (2, 2), (3, 2), (4, 2)] ∧
    (multiAttemptReports 2 1 0 2).drop (multiAttemptReports 2 1 0 1).length
        = [(3, 2), (4, 2)] ∧
    multiAttemptReports 2 1 0 1 = [(1, 2), (2, 2)] ∧
    ([(3, 2), (4, 2)] : List (Nat × Nat)) ≠ [(1, 2), (2, 2)] := by
  refine ⟨by decide, by decide, by decide, by decide⟩

/-- C5 amended: the bytes-sent counter is initialised to zero once per
transfer, when the ProgressFile wrapper is constructed, and is not reset at
the start of a retried attempt: the retry rewinds the underlying file but
keeps the counter, so the reports of the second attempt are exactly the
fresh-attempt reports with every byte count shifted up by the previous
attempt's total. -/
theorem counter_carried_across_attempts (size chunk : Nat) :
    multiAttemptReports size chunk 0 2
      = reportsFrom size 0 (chunkSizes chunk size)
        ++ (reportsFrom size 0 (chunkSizes chunk size)).map
            (fun p => (p.1 + size, p.2)) := by
  rw [multiAttemptReports, multiAttemptReports, multiAttemptReports]
  rw [reportsFrom_shift size (chunkSizes chunk size) 0 size]
  simp

/-- C3: a transfer whose destination persistently answers 503 issues exactly
4 PUT attempts (1 initial + 3 retries) and returns a single aggregated
failure; a 4xx status is returned on the first attempt, never retried, and
is a failure since it is not among 200/201/204; and the orchestrator reports
the aggregated failure as "Upload Failed". -/
theorem upload_retry_bound_and_4xx_no_retry :
    (∀ oracle : Nat → PutResult, (∀ n, oracle n = .status 503) →
      upload_file oracle = (false, 4)) ∧
    (∀ c : Nat, 400 ≤ c → c < 500 →
      upload_file (fun _ => .status c) = (false, 1)) ∧
    (∀ (env : Env) (folder : String) (total idx ps : Nat) (f : FileDesc)
      (itemId pu mu : String),
      isTooLarge f.size = false →
      create_item (env.createResp f) = some itemId →
      env.presignResp itemId f = some (pu, mu) →
      (∀ n, env.uploadOracle f n = .status 503) →
      (processFile env folder total idx ps f).outcome = .uploadFailed ∧
      Event.fileStatus f.name "Upload Failed"
        ∈ (processFile env folder total idx ps f).events) := by
  have part1 : ∀ oracle : Nat → PutResult, (∀ n, oracle n = .status 503) →
      upload_file oracle = (false, 4) := by
    intro oracle h
    rw [upload_file, sessionPutGo_const503 oracle h 3 0]
  refine ⟨part1, ?_, ?_⟩
  · intro c h4 h5
    have hforce : isForceStatus c = false := by
      simp only [isForceStatus, Bool.or_eq_false_iff, beq_eq_false_iff_ne]
      omega
    rw [upload_file, sessionPutGo_nonforce c hforce 3 0]
    simp only [Bool.or_eq_false_iff, beq_eq_false_iff_ne, Prod.mk.injEq, and_true]
    refine ⟨⟨?_, ?_⟩, ?_⟩ <;> omega
  · intro env folder total idx ps f itemId pu mu hTL hc hp h503
    have hu : (upload_file (env.uploadOracle f)).1 = false := by
      rw [part1 (env.uploadOracle f) h503]
    refine ⟨?_, ?_⟩ <;> simp [processFile, hTL, hc, hp, hu]

/-- C1: a file above the size threshold triggers no remote call at all, and
(when the filesystem move succeeds) is moved to the `too_large` subfolder of
the source directory under its original name, with the TooLarge outcome and
status. -/
theorem tooLarge_moves_file_and_skips_remote (env : Env) (folder : String)
    (total idx ps : Nat) (f : FileDesc) (hbig : isTooLarge f.size = true) :
    (processFile env folder total idx ps f).calls = [] ∧
    (env.moveTooLargeOk f = true →
      (processFile env folder total idx ps f).loc = .tooLarge ∧
      (processFile env folder total idx ps f).outcome = .tooLarge true ∧
      Event.fileStatus f.name "Too Large"
        ∈ (processFile env folder total idx ps f).events ∧
      Event.fileLocation f.name (folder ++ "/too_large/" ++ f.name)
        ∈ (processFile env folder total idx ps f).events) := by
  refine ⟨?_, fun hmove => ?_⟩
  · cases hm : env.moveTooLargeOk f <;> simp [processFile, hbig, hm]
  · refine ⟨?_, ?_, ?_, ?_⟩ <;> simp [processFile, hbig, hmove]

/-- C1 witness: a concrete 5153960756-byte file in the all-success
environment. -/
theorem tooLarge_moves_file_and_skips_remote_witness :
    (processFile okEnv "/videos" 1 0 0 bigFile).calls = [] ∧
    (processFile okEnv "/videos" 1 0 0 bigFile).loc = .tooLarge ∧
    (processFile okEnv "/videos" 1 0 0 bigFile).outcome = .tooLarge true ∧
    Event.fileStatus bigFile.name "Too Large"
      ∈ (processFile okEnv "/videos" 1 0 0 bigFile).events ∧
    Event.fileLocation bigFile.name ("/videos" ++ "/too_large/" ++ bigFile.name)
      ∈ (processFile okEnv "/videos" 1 0 0 bigFile).events :=
  ⟨(tooLarge_moves_file_and_skips_remote okEnv "/videos" 1 0 0 bigFile (by decide)).1,
   (tooLarge_moves_file_and_skips_remote okEnv "/videos" 1 0 0 bigFile (by decide)).2 rfl⟩

/-- C2: for a file at or under the threshold, exactly one record-create call
is issued and at most one credential request; when record creation yields no
identifier, no credential request is issued, the file stays in the source
folder with the CreateFailed outcome, and — by the second conjunct — every
discovered file still receives its own "Processing" announcement, whatever
happened to the files before it. -/
theorem create_once_and_failure_short_circuits :
    (∀ (env : Env) (folder : String) (total idx ps : Nat) (f : FileDesc),
      isTooLarge f.size = false →
      createCount (processFile env folder total idx ps f).calls = 1 ∧
      presignCount (processFile env folder total idx ps f).calls ≤ 1 ∧
      (create_item (env.createResp f) = none →
        presignCount (processFile env folder total idx ps f).calls = 0 ∧
        (processFile env folder total idx ps f).loc = .source ∧
        (processFile env folder total idx ps f).outcome = .createFailed)) ∧
    (∀ (env : Env) (folder : String) (files : List FileDesc) (g : FileDesc),
      g ∈ files →
      Event.fileStatus g.name "Processing" ∈ process_files env folder files) := by
  refine ⟨?_, processing_mem_process_files⟩
  intro env folder total idx ps f hTL
  refine ⟨?_, ?_, fun hc => ?_⟩
  · rw [processFile]
    repeat' split
    all_goals simp_all [createCount]
  · rw [processFile]
    repeat' split
    all_goals simp_all [presignCount]
  · refine ⟨?_, ?_, ?_⟩ <;> simp [processFile, hTL, hc, presignCount]

/-- C2 witness: a concrete environment whose create POST raises, on a
10-byte file. -/
theorem create_once_and_failure_short_circuits_witness :
    createCount (processFile createFailEnv "/videos" 1 0 0 sampleFile).calls = 1 ∧
    presignCount (processFile createFailEnv "/videos" 1 0 0 sampleFile).calls = 0 ∧
    (processFile createFailEnv "/videos" 1 0 0 sampleFile).loc = .source ∧
    (processFile createFailEnv "/videos" 1 0 0 sampleFile).outcome = .createFailed ∧
    Event.fileStatus sampleFile.name "Processing"
      ∈ process_files createFailEnv "/videos" [sampleFile] :=
  ⟨(create_once_and_failure_short_circuits.1 createFailEnv "/videos" 1 0 0 sampleFile
      (by decide)).1,
   ((create_once_and_failure_short_circuits.1 createFailEnv "/videos" 1 0 0 sampleFile
      (by decide)).2.2 rfl).1,
   ((create_once_and_failure_short_circuits.1 createFailEnv "/videos" 1 0 0 sampleFile
      (by decide)).2.2 rfl).2.1,
   ((create_once_and_failure_short_circuits.1 createFailEnv "/videos" 1 0 0 sampleFile
      (by decide)).2.2 rfl).2.2,
   create_once_and_failure_short_circuits.2 createFailEnv "/videos" [sampleFile]
      sampleFile (by simp)⟩

/-- C3 witness: the persistent-503 destination and a 403 destination, plus
the orchestrator's report on a concrete file. -/
theorem upload_retry_bound_and_4xx_no_retry_witness :
    upload_file (fun _ => .status 503) = (false, 4) ∧
    upload_file (fun _ => .status 403) = (false, 1) ∧
    (processFile upload503Env "/videos" 1 0 0 sampleFile).outcome = .uploadFailed ∧
    Event.fileStatus sampleFile.name "Upload Failed"
      ∈ (processFile upload503Env "/videos" 1 0 0 sampleFile).events :=
  ⟨upload_retry_bound_and_4xx_no_retry.1 (fun _ => .status 503) (fun _ => rfl),
   upload_retry_bound_and_4xx_no_retry.2.1 403 (by decide) (by decide),
   (upload_retry_bound_and_4xx_no_retry.2.2 upload503Env "/videos" 1 0 0 sampleFile
      "item1" "https://upload.example/u" "https://media.example/m"
      (by decide) (by decide) rfl (fun _ => rfl)).1,
   (upload_retry_bound_and_4xx_no_retry.2.2 upload503Env "/videos" 1 0 0 sampleFile
      "item1" "https://upload.example/u" "https://media.example/m"
      (by decide) (by decide) rfl (fun _ => rfl)).2⟩

/-- C7: every failure of a non-size-gated step is handled inside the
per-file iteration — beyond the two unconditional "Processing"
announcements it emits exactly one human-readable status event and exactly
one per-file status update, leaves the file in the source folder, and — by
the second conjunct — every discovered file still receives its own
"Processing" announcement, whatever happened to the files before it. -/
theorem failures_handled_locally :
    (∀ (env : Env) (folder : String) (total idx ps : Nat) (f : FileDesc),
      isTooLarge f.size = false →
      (processFile env folder total idx ps f).outcome.isFailure = true →
      statusCount ((processFile env folder total idx ps f).events.drop 2) = 1 ∧
      fileStatusCount ((processFile env folder total idx ps f).events.drop 2) = 1 ∧
      (processFile env folder total idx ps f).loc = .source) ∧
    (∀ (env : Env) (folder : String) (files : List FileDesc) (g : FileDesc),
      g ∈ files →
      Event.fileStatus g.name "Processing" ∈ process_files env folder files) := by
  refine ⟨?_, processing_mem_process_files⟩
  intro env folder total idx ps f hTL hfail
  cases hc : create_item (env.createResp f) with
  | none =>
    refine ⟨?_, ?_, ?_⟩ <;>
      simp [processFile, hTL, hc, statusCount, fileStatusCount]
  | some itemId =>
    cases hp : env.presignResp itemId f with
    | none =>
      refine ⟨?_, ?_, ?_⟩ <;>
        simp [processFile, hTL, hc, hp, statusCount, fileStatusCount]
    | some pum =>
      obtain ⟨pu, mu⟩ := pum
      cases hu : (upload_file (env.uploadOracle f)).1 with
      | false =>
        refine ⟨?_, ?_, ?_⟩ <;>
          simp [processFile, hTL, hc, hp, hu, statusCount, fileStatusCount,
            statusCount_append, fileStatusCount_append, transferProgressEvents,
            statusCount_progressEventsOf, fileStatusCount_progressEventsOf]
      | true =>
        cases hf : env.fetchResp itemId with
        | none =>
          refine ⟨?_, ?_, ?_⟩ <;>
            simp [processFile, hTL, hc, hp, hu, hf, statusCount, fileStatusCount,
              statusCount_append, fileStatusCount_append, transferProgressEvents,
              statusCount_progressEventsOf, fileStatusCount_progressEventsOf]
        | some d =>
          cases hupd : env.updateResp itemId mu (f.mime.getD "application/octet-stream") f.size with
          | false =>
            refine ⟨?_, ?_, ?_⟩ <;>
              simp [processFile, hTL, hc, hp, hu, hf, hupd, statusCount, fileStatusCount,
                statusCount_append, fileStatusCount_append, transferProgressEvents,
                statusCount_progressEventsOf, fileStatusCount_progressEventsOf]
          | true =>
            exfalso
            revert hfail
            cases hmv : env.moveProcessedOk f <;>
              simp [processFile, hTL, hc, hp, hu, hf, hupd, hmv, Outcome.isFailure]

/-- C7 witness: a finalize failure on a concrete file. -/
theorem failures_handled_locally_witness :
    statusCount ((processFile finalizeFailEnv "/videos" 1 0 0 sampleFile).events.drop 2) = 1 ∧
    fileStatusCount ((processFile finalizeFailEnv "/videos" 1 0 0 sampleFile).events.drop 2) = 1 ∧
    (processFile finalizeFailEnv "/videos" 1 0 0 sampleFile).loc = .source ∧
    Event.fileStatus sampleFile.name "Processing"
      ∈ process_files finalizeFailEnv "/videos" [sampleFile] :=
  ⟨(failures_handled_locally.1 finalizeFailEnv "/videos" 1 0 0 sampleFile
      (by decide) (by decide)).1,
   (failures_handled_locally.1 finalizeFailEnv "/videos" 1 0 0 sampleFile
      (by decide) (by decide)).2.1,
   (failures_handled_locally.1 finalizeFailEnv "/videos" 1 0 0 sampleFile
      (by decide) (by decide)).2.2,
   failures_handled_locally.2 finalizeFailEnv "/videos" [sampleFile] sampleFile (by simp)⟩

/-- Every per-file status update emitted in one iteration carries a value
from the enumerated set. -/
theorem perFile_fileStatus_allowed (env : Env) (folder : String)
    (total idx ps : Nat) (f : FileDesc) :
    ∀ e ∈ (processFile env folder total idx ps f).events,
      ∀ n s, e = Event.fileStatus n s → s ∈ allowedFileStatuses := by
  unfold processFile
  repeat' split
  all_goals intro e he n s hfs
  all_goals subst hfs
  all_goals simp_all [transferProgressEvents, allowedFileStatuses,
    fileStatus_not_mem_progressEventsOf]
  all_goals tauto

/-- Every per-file status update emitted by the remaining loop carries a
value from the enumerated set. -/
theorem processFilesGo_fileStatus_allowed (env : Env) (folder : String)
    (total : Nat) (l : List FileDesc) :
    ∀ idx ps, ∀ e ∈ processFilesGo env folder total idx ps l,
      ∀ n s, e = Event.fileStatus n s → s ∈ allowedFileStatuses := by
  induction l with
  | nil => intro idx ps e he; simp [processFilesGo] at he
  | cons f rest ih =>
    intro idx ps e he n s hfs
    rw [processFilesGo] at he
    rcases List.mem_append.1 he with h | h
    · exact perFile_fileStatus_allowed env folder total idx ps f e h n s hfs
    · exact ih _ _ e h n s hfs

/-- C9: every per-file status event of the whole pipeline trace carries a
value from the fixed set Pending / Processing / Too Large / Error /
Upload Failed / Completed. -/
theorem fileStatus_events_enumerated (env : Env) (folder : String)
    (files : List FileDesc) (e : Event) (he : e ∈ process_files env folder files)
    (n s : String) (hfs : e = Event.fileStatus n s) : s ∈ allowedFileStatuses := by
  subst hfs
  rw [process_files] at he
  rcases List.mem_cons.1 he with h | h
  · exact absurd h (by simp)
  · by_cases hemp : files.isEmpty
    · rw [if_pos hemp] at h
      simp at h
    · rw [if_neg hemp] at h
      rcases List.mem_append.1 h with h2 | h2
      · rcases List.mem_append.1 h2 with h3 | h3
        · obtain ⟨g, _, hg2⟩ := List.mem_map.1 h3
          obtain ⟨-, rfl⟩ := Event.fileStatus.inj hg2.symm
          decide
        · exact processFilesGo_fileStatus_allowed env folder files.length files 0 0
            (Event.fileStatus n s) h3 n s rfl
      · simp at h2

/-- C9 witness: the "Processing" update of a one-file run. -/
theorem fileStatus_events_enumerated_witness : "Processing" ∈ allowedFileStatuses :=
  fileStatus_events_enumerated okEnv "/videos" [sampleFile]
    (Event.fileStatus "a.mp4" "Processing") (by decide) "a.mp4" "Processing" rfl

/-- C10: whenever the transfer and the fetch both succeed, the iteration
ends by counting the file into the overall progress and emitting a final
100-percent per-file progress event, whether or not the finalize step
succeeds; when finalize fails the file keeps the Error status and stays in
the source folder, yet still receives the 100-percent event. -/
theorem fetch_success_emits_final_progress (env : Env) (folder : String)
    (total idx ps : Nat) (f : FileDesc) (itemId pu mu d : String)
    (hTL : isTooLarge f.size = false)
    (hc : create_item (env.createResp f) = some itemId)
    (hp : env.presignResp itemId f = some (pu, mu))
    (hu : (upload_file (env.uploadOracle f)).1 = true)
    (hf : env.fetchResp itemId = some d) :
    (processFile env folder total idx ps f).events.getLast?
        = some (.fileProgress f.name 100) ∧
    Event.overallProgress (((ps + 1 : Nat) : ℚ) / (total : ℚ) * 100)
        ∈ (processFile env folder total idx ps f).events ∧
    (processFile env folder total idx ps f).processedInc = true ∧
    (env.updateResp itemId mu (f.mime.getD "application/octet-stream") f.size = false →
      (processFile env folder total idx ps f).outcome = .finalizeFailed ∧
      Event.fileStatus f.name "Error" ∈ (processFile env folder total idx ps f).events ∧
      (processFile env folder total idx ps f).loc = .source) := by
  cases hupd : env.updateResp itemId mu (f.mime.getD "application/octet-stream") f.size with
  | false =>
    refine ⟨?_, ?_, ?_, fun _ => ⟨?_, ?_, ?_⟩⟩ <;>
      simp [processFile, hTL, hc, hp, hu, hf, hupd,
        List.getLast?_append_cons, List.getLast?_cons_cons, getLast?_cons_append_cons]
  | true =>
    cases hmv : env.moveProcessedOk f with
    | false =>
      refine ⟨?_, ?_, ?_, fun hcontra => by simp [hupd] at hcontra⟩ <;>
        simp [processFile, hTL, hc, hp, hu, hf, hupd, hmv,
          List.getLast?_append_cons, List.getLast?_cons_cons, getLast?_cons_append_cons]
    | true =>
      refine ⟨?_, ?_, ?_, fun hcontra => by simp [hupd] at hcontra⟩ <;>
        simp [processFile, hTL, hc, hp, hu, hf, hupd, hmv,
          List.getLast?_append_cons, List.getLast?_cons_cons, getLast?_cons_append_cons]

/-- C10 witness: a finalize failure after successful transfer and fetch on a
concrete file. -/
theorem fetch_success_emits_final_progress_witness :
    (processFile finalizeFailEnv "/videos" 1 0 0 sampleFile).events.getLast?
        = some (.fileProgress sampleFile.name 100) ∧
    Event.overallProgress (((0 + 1 : Nat) : ℚ) / ((1 : Nat) : ℚ) * 100)
        ∈ (processFile finalizeFailEnv "/videos" 1 0 0 sampleFile).events ∧
    (processFile finalizeFailEnv "/videos" 1 0 0 sampleFile).processedInc = true ∧
    (processFile finalizeFailEnv "/videos" 1 0 0 sampleFile).outcome = .finalizeFailed ∧
    Event.fileStatus sampleFile.name "Error"
      ∈ (processFile finalizeFailEnv "/videos" 1 0 0 sampleFile).events ∧
    (processFile finalizeFailEnv "/videos" 1 0 0 sampleFile).loc = .source := by
  have h := fetch_success_emits_final_progress finalizeFailEnv "/videos" 1 0 0 sampleFile
    "item1" "https://upload.example/u" "https://media.example/m" "data"
    (by decide) (by decide) rfl (by decide) rfl
  exact ⟨h.1, h.2.1, h.2.2.1, (h.2.2.2 rfl).1, (h.2.2.2 rfl).2.1, (h.2.2.2 rfl).2.2⟩

/-- C4 counterexample: a transfer that succeeds on its second attempt (503
then 200) is a successful transfer, yet the final byte count passed to the
progress callback is twice the file size, so the final emitted per-file
progress percentage is 200, not 100. -/
theorem final_pct_counterexample :
    (upload_file retryThenOkOracle).1 = true ∧
    (transferCallbackTrace retryThenOkOracle 2 1).getLast? = some (4, 2) ∧
    pct 4 2 = 200 ∧ (200 : ℚ) ≠ 100 :=
  ⟨by decide, by decide, by norm_num [pct], by norm_num⟩

/-- C4 amended: for every transfer the byte counts passed to the callback
are non-decreasing and each is paired with the file's total byte count; for
a transfer that completes on its first attempt (no transport retry) the
final report is `(size, size)` and the final emitted percentage equals
100.  (After a retry the final percentage exceeds 100; see the C5
theorems.) -/
theorem progress_monotone_paired_first_attempt_final_pct (size chunk k : Nat) :
    List.Chain' (fun p q : Nat × Nat => p.1 ≤ q.1) (multiAttemptReports size chunk 0 k) ∧
    (∀ p ∈ multiAttemptReports size chunk 0 k, p.2 = size) ∧
    (0 < size → 0 < chunk →
      (multiAttemptReports size chunk 0 1).getLast? = some (size, size) ∧
      pct size size = 100) :=
  ⟨multiAttemptReports_chain size chunk k 0,
   multiAttemptReports_snd size chunk k 0,
   fun hs hc => ⟨multiAttemptReports_one_getLast? size chunk hs hc, pct_self size hs⟩⟩

/-- C4 witness: a 2-byte file in 1-byte chunks, one attempt. -/
theorem progress_monotone_paired_first_attempt_final_pct_witness :
    (multiAttemptReports 2 1 0 1).getLast? = some (2, 2) ∧ pct 2 2 = 100 :=
  (progress_monotone_paired_first_attempt_final_pct 2 1 1).2.2 (by decide) (by decide)

end Microfeed
